import Mathlib

/-!
Verification of the scheduling core of `src/App.tsx` (barbershop booking MVP).

The embedding below translates the time helpers (`timeToMin`, `minToTime`,
`dateToISO`, `getDayBookings`), the pre-commit conflict check inside `reservar`,
and the booking-commit flow of `reservar` directly from the source.  The slot
computation entry point `slotsDisponiveis` is called at App.tsx:370 but its
definition is not present in the repository sources; it is modelled from the
specification (`computeSlots`, spec §4.2 and §7) and marked as such.

JavaScript numbers that hold integer minute offsets are modelled as `Int`
(`Math.floor(x/y)` is `Int.fdiv`, the JS `%` operator is `Int.tmod`).
Fallible parses (JS `NaN` results) are modelled with `Option`.
-/

/-- `type Service` (App.tsx:26): service catalog entry. -/
structure Service where
  id : String
  nome : String
  duracaoMin : Int
  preco : Int
deriving Repr, DecidableEq

/-- `type Booking` (App.tsx:27): a stored appointment. -/
structure Booking where
  id : String
  cliente : String
  telefone : String
  dataISO : String
  inicioMin : Int
  fimMin : Int
  servicoId : String
  observacoes : Option String
deriving Repr, DecidableEq

/-- `type Config` (App.tsx:28-34): shop configuration; opening and closing
times are stored as clock strings. -/
structure Config where
  nomeBarbearia : String
  intervaloMin : Int
  diasAtivos : List Int
  horaAbertura : String
  horaFechamento : String
deriving Repr, DecidableEq

/-- Local calendar/time components of a JS `Date` value, as observed through
its accessors: `getFullYear`, `getMonth` (0-based), `getDate`, and the
time-of-day accessors that the scheduling code never reads. -/
structure JSDate where
  year : Int
  month : Int
  day : Int
  hour : Int
  minute : Int
  second : Int
deriving Repr, DecidableEq

/-- `String.prototype.padStart(2, "0")`. -/
def padStart2 (s : String) : String :=
  if 2 ≤ s.length then s else String.mk (List.replicate (2 - s.length) '0') ++ s

/-- `const pad = (n) => String(n).padStart(2, "0")` (App.tsx:23). -/
def pad (n : Int) : String :=
  padStart2 (toString n)

/-- Accumulator pass of `jsNumber?`: consumes decimal digits, `none` on any
other character (the JS result would be `NaN`). -/
def digitsVal : List Char → Nat → Option Nat
  | [], acc => some acc
  | c :: cs, acc =>
    if c.isDigit then digitsVal cs (acc * 10 + (c.toNat - 48)) else none

/-- Models `Number(s)` on the strings this application feeds it: nonnegative
decimal integer strings (the empty string evaluates to `0`, as in JS).  Signs,
fractions, exponents and blanks do not occur in the app's clock strings and are
mapped to `none` (JS `NaN`). -/
def jsNumber? (s : String) : Option Nat :=
  digitsVal s.data 0

/-- Tail of `splitColon`: accumulates the current chunk in reverse. -/
def splitColonAux : List Char → List Char → List String
  | [], acc => [String.mk acc.reverse]
  | c :: cs, acc =>
    if c = ':' then String.mk acc.reverse :: splitColonAux cs []
    else splitColonAux cs (c :: acc)

/-- `s.split(":")` from JS, specialised to the one-character separator used by
`timeToMin`: always returns at least one chunk. -/
def splitColon (s : String) : List String :=
  splitColonAux s.data []

/-- `timeToMin` (App.tsx:78):
`const [h,m] = t.split(":").map(Number); return h*60+m;`.
The destructuring reads the first two chunks; a missing or non-numeric chunk
makes the JS result `NaN`, modelled as `none`. -/
def timeToMin (t : String) : Option Int :=
  match splitColon t with
  | h :: m :: _ =>
    match jsNumber? h, jsNumber? m with
    | some hv, some mv => some ((hv : Int) * 60 + (mv : Int))
    | _, _ => none
  | _ => none

/-- `minToTime` (App.tsx:79):
`const h = Math.floor(min/60), m = min%60; return pad(h) + ":" + pad(m);`. -/
def minToTime (min : Int) : String :=
  let h := min.fdiv 60
  let m := min.tmod 60
  pad h ++ ":" ++ pad m

/-- Days since 1970-01-01 of the civil date `y-m-d` with `m ∈ [1,12]`
(Howard Hinnant's `days_from_civil`, the algorithm underlying JS date
arithmetic). -/
def daysFromCivil (y m d : Int) : Int :=
  let y2 := if m ≤ 2 then y - 1 else y
  let era := y2.fdiv 400
  let yoe := y2 - era * 400
  let mp := if m ≤ 2 then m + 9 else m - 3
  let doy := (153 * mp + 2).fdiv 5 + d - 1
  let doe := yoe * 365 + yoe.fdiv 4 - yoe.fdiv 100 + doy
  era * 146097 + doe - 719468

/-- Inverse of `daysFromCivil` (`civil_from_days`): the civil date of an epoch
day count, used by `toISOString`. -/
def civilFromDays (z0 : Int) : Int × Int × Int :=
  let z := z0 + 719468
  let era := z.fdiv 146097
  let doe := z - era * 146097
  let yoe := (doe - doe.fdiv 1460 + doe.fdiv 36524 - doe.fdiv 146096).fdiv 365
  let y := yoe + era * 400
  let doy := doe - (365 * yoe + yoe.fdiv 4 - yoe.fdiv 100)
  let mp := (5 * doy + 2).fdiv 153
  let d := doy - (153 * mp + 2).fdiv 5 + 1
  let m := if mp < 10 then mp + 3 else mp - 9
  (if m ≤ 2 then y + 1 else y, m, d)

/-- `Date.UTC(y, mo, d) / 86400000`: the epoch day of UTC midnight of the given
arguments, including the JS normalizations (years 0..99 mean 1900..1999,
month indices and day numbers outside their ranges carry over). -/
def jsDateUTCdays (y mo d : Int) : Int :=
  let y1 := if 0 ≤ y ∧ y ≤ 99 then y + 1900 else y
  let ym := y1 + mo.fdiv 12
  let m0 := mo.emod 12
  daysFromCivil ym (m0 + 1) 1 + (d - 1)

/-- The year field of `toISOString`: four zero-padded digits, or the expanded
signed six-digit form outside `[0, 9999]`. -/
def isoYear (y : Int) : String :=
  if 0 ≤ y ∧ y ≤ 9999 then
    let s := toString y
    String.mk (List.replicate (4 - s.length) '0') ++ s
  else
    let sign := if y < 0 then "-" else "+"
    let s := toString (if y < 0 then -y else y)
    sign ++ String.mk (List.replicate (6 - s.length) '0') ++ s

/-- `toISOString()` of the `Date` holding UTC midnight of epoch day `z`. -/
def isoStringOfEpochDay (z : Int) : String :=
  match civilFromDays z with
  | (y, m, d) => isoYear y ++ "-" ++ pad m ++ "-" ++ pad d ++ "T00:00:00.000Z"

/-- `dateToISO` (App.tsx:80):
`new Date(Date.UTC(d.getFullYear(), d.getMonth(), d.getDate())).toISOString()`.
Reads only the local year/month/day accessors of its argument. -/
def dateToISO (dt : JSDate) : String :=
  isoStringOfEpochDay (jsDateUTCdays dt.year dt.month dt.day)

/-- `Date.prototype.getDay()`: local weekday, `0` = Sunday.  Determined by the
local calendar date; 1970-01-01 was a Thursday (`4`). -/
def JSDate.getDay (dt : JSDate) : Int :=
  (daysFromCivil dt.year (dt.month + 1) dt.day + 4).emod 7

/-- `getDayBookings` (App.tsx:81-84): filter the list to the day key of `day`,
then sort by start offset (`.sort((x,y) => x.inicioMin - y.inicioMin)`; the
ES2019 `Array.prototype.sort` is stable, and `filter` has already produced a
fresh array, so the input list is untouched). -/
def getDayBookings (bookings : List Booking) (day : JSDate) : List Booking :=
  (bookings.filter fun b => b.dataISO == dateToISO day).mergeSort
    fun x y => decide (x.inicioMin ≤ y.inicioMin)

/-- One booking's share of the pre-commit conflict test (App.tsx:380): the body
of `bookings.some(b => !(fim <= b.inicioMin || inicio >= b.fimMin))`. -/
def conflitoCom (inicio fim : Int) (b : Booking) : Bool :=
  !(decide (fim ≤ b.inicioMin) || decide (inicio ≥ b.fimMin))

/-- The pre-commit conflict check of `reservar` (App.tsx:380):
`bookings.some(b => !(fim <= b.inicioMin || inicio >= b.fimMin))`.
Note that it ranges over the whole list it is given; it performs no day-key
filtering of its own. -/
def conflito (bookings : List Booking) (inicio fim : Int) : Bool :=
  bookings.any (conflitoCom inicio fim)

/-- `String.prototype.trim()` (whitespace from both ends), as used by the
`!cliente.trim()` guard of `reservar`. -/
def jsTrim (s : String) : String :=
  String.mk ((s.data.dropWhile Char.isWhitespace).reverse.dropWhile
    Char.isWhitespace).reverse

/-- Observable outcome of one `reservar` call (App.tsx:373-405): an early-return
validation toast, the conflict toast of line 381, or a confirmed booking
together with the list passed to `saveBookingsLocal`. -/
inductive ReservarResult where
  | erro (msg : String)
  | horarioOcupado
  | confirmado (novo : Booking) (salvos : List Booking)
deriving Repr, DecidableEq

/-- `reservar` (App.tsx:373-405) as a pure function of the component state it
reads (`servico`, `diaAtivo`, `inicio`, `cliente`, `telefone`, `obs`,
`bookings`, `date`) plus the fresh `crypto.randomUUID()`.  The local-storage
branch is modelled; the Supabase branch runs the same guards and conflict
check before performing I/O. -/
def reservar (cfg : Config) (servico? : Option Service) (date : JSDate)
    (inicio? : Option Int) (cliente telefone obs : String)
    (bookings : List Booking) (freshId : String) : ReservarResult :=
  match servico? with
  | none => .erro "Escolha um serviço"
  | some servico =>
    if !(cfg.diasAtivos.contains date.getDay) then .erro "Este dia não está disponível"
    else
      match inicio? with
      | none => .erro "Selecione um horário"
      | some inicio =>
        if jsTrim cliente == "" then .erro "Informe seu nome"
        else
          let fim := inicio + servico.duracaoMin
          if conflito bookings inicio fim then .horarioOcupado
          else
            let novo : Booking :=
              { id := freshId, cliente := cliente, telefone := telefone,
                dataISO := dateToISO date, inicioMin := inicio, fimMin := fim,
                servicoId := servico.id,
                observacoes := if obs == "" then none else some obs }
            .confirmado novo (bookings ++ [novo])

/-- Modelled from the spec: the half-open interval overlap predicate
`overlaps` of §4.1 — `a.start < b.end AND b.start < a.end` — applied to the
two intervals `[aStart, aEnd)` and `[bStart, bEnd)`. -/
def overlaps (aStart aEnd bStart bEnd : Int) : Bool :=
  decide (aStart < bEnd) && decide (bStart < aEnd)

/-- Modelled from the spec: the `ConfigurationError` taxonomy of §7 — invalid
`Config` means non-positive slot granularity, `opening >= closing`, or an
opening/closing clock string the time parser cannot read. -/
inductive ConfigError where
  | granularidadeNaoPositiva
  | janelaInvalida
  | horarioIlegivel
deriving Repr, DecidableEq

/-- Modelled from the spec: the candidate loop of `computeSlots` (§4.2) —
"starting at `config.opening`, step by `config.slotGranularity` while
`current + service.duration <= config.closing`; for each candidate start, form
the interval and test it against every booking …; emit the candidate iff no
overlap is found."  The `fuel` argument only bounds the recursion; with
`1 ≤ step` and `fuel = closing - dur - opening + 1` it never cuts the loop
short. -/
def slotsLoop (dayBookings : List Booking) (dur step closing : Int) :
    Int → Nat → List Int
  | _, 0 => []
  | current, fuel + 1 =>
    if current + dur ≤ closing then
      (if dayBookings.all fun b => !overlaps current (current + dur) b.inicioMin b.fimMin
        then [current] else []) ++
      slotsLoop dayBookings dur step closing (current + step) fuel
    else []

/-- Modelled from the spec: `slotsDisponiveis` is called at App.tsx:370 but not
defined anywhere in the repository source; this follows `computeSlots`
(spec §4.2) with the fail-fast configuration validation of §7: non-positive
granularity and `opening >= closing` are configuration errors, an inactive
weekday yields the empty sequence, and bookings are filtered internally to the
target date's day key. -/
def slotsDisponiveis (cfg : Config) (servico : Service) (date : JSDate)
    (bookings : List Booking) : Except ConfigError (List Int) :=
  if cfg.intervaloMin ≤ 0 then .error .granularidadeNaoPositiva
  else
    match timeToMin cfg.horaAbertura, timeToMin cfg.horaFechamento with
    | some abertura, some fechamento =>
      if fechamento ≤ abertura then .error .janelaInvalida
      else if !(cfg.diasAtivos.contains date.getDay) then .ok []
      else
        let dayBookings := bookings.filter fun b => b.dataISO == dateToISO date
        .ok (slotsLoop dayBookings servico.duracaoMin cfg.intervaloMin fechamento
          abertura (fechamento - servico.duracaoMin - abertura + 1).toNat)
    | _, _ => .error .horarioIlegivel

/-- The list that `saveBookingsLocal` holds after one `reservar` call starting
from `bookings`: only the confirmed path (App.tsx:398-399) writes a new list. -/
def bookingsAfterReservar (bookings : List Booking) : ReservarResult → List Booking
  | .confirmado _ salvos => salvos
  | _ => bookings

/-- `defaultConfig` (App.tsx:48-54). -/
def defaultConfig : Config :=
  { nomeBarbearia := "Barbearia do Bairro", intervaloMin := 15,
    diasAtivos := [1, 2, 3, 4, 5, 6], horaAbertura := "09:00",
    horaFechamento := "19:00" }

/-- Monday 2026-10-12 at local midnight: concrete target date for witnesses. -/
def segunda : JSDate := ⟨2026, 9, 12, 0, 0, 0⟩

/-- A 45-minute service (the shape of `defaultServices[0]`, fixed id). -/
def corte : Service := ⟨"svc-corte", "Corte Masculino", 45, 55⟩

/-- A booking occupying 10:00-10:45 on the target Monday. -/
def reservaSegunda : Booking :=
  ⟨"bk-1", "Zé", "(11) 99999-0000", dateToISO segunda, 600, 645, "svc-corte", none⟩

/-- A booking occupying the same minutes on the following day (Tuesday). -/
def reservaTerca : Booking :=
  ⟨"bk-2", "Lu", "(11) 99999-0001", dateToISO ⟨2026, 9, 13, 0, 0, 0⟩, 600, 645,
    "svc-corte", none⟩

/-- The default config narrowed to a 09:00-11:00 window, for small witnesses. -/
def configManha : Config := { defaultConfig with horaFechamento := "11:00" }


/-- C2: the pre-commit conflict check of `reservar` treats intervals as
half-open — it reports a conflict iff some booking `b` in the given list has
`inicio < b.fimMin` and `b.inicioMin < fim`; touching intervals are not
flagged. -/
theorem conflito_halfOpen_iff (bookings : List Booking) (inicio fim : Int) :
    conflito bookings inicio fim = true ↔
      ∃ b ∈ bookings, inicio < b.fimMin ∧ b.inicioMin < fim := by
  simp only [conflito, List.any_eq_true, conflitoCom, Bool.not_eq_true',
    Bool.or_eq_false_iff, decide_eq_false_iff_not, not_le, ge_iff_le]
  exact ⟨fun ⟨b, hb, h1, h2⟩ => ⟨b, hb, h2, h1⟩, fun ⟨b, hb, h1, h2⟩ => ⟨b, hb, h2, h1⟩⟩

/-- C5: a configuration whose slot granularity is zero or negative makes the
slot-computation entry point fail fast with a configuration error, never an
empty slot list. -/
theorem slotsDisponiveis_failFast (cfg : Config) (servico : Service)
    (date : JSDate) (bookings : List Booking) (h : cfg.intervaloMin ≤ 0) :
    slotsDisponiveis cfg servico date bookings
      = .error .granularidadeNaoPositiva := by
  simp [slotsDisponiveis, h]

/-- Witness for C5 at a concrete zero-granularity configuration. -/
theorem slotsDisponiveis_failFast_witness :
    ({ defaultConfig with intervaloMin := 0 } : Config).intervaloMin ≤ 0 ∧
    slotsDisponiveis { defaultConfig with intervaloMin := 0 } corte segunda []
      = .error .granularidadeNaoPositiva :=
  ⟨by decide, slotsDisponiveis_failFast _ _ _ _ (by decide)⟩

/-- C8: `dateToISO` yields the same day key for any two `Date` values with
equal local year, month and day-of-month, regardless of their time-of-day
components. -/
theorem dateToISO_dayKey (d1 d2 : JSDate) (hy : d1.year = d2.year)
    (hm : d1.month = d2.month) (hd : d1.day = d2.day) :
    dateToISO d1 = dateToISO d2 := by
  simp [dateToISO, hy, hm, hd]

/-- Witness for C8: morning and late-night timestamps of the same day. -/
theorem dateToISO_dayKey_witness :
    (⟨2026, 9, 12, 8, 30, 15⟩ : JSDate).year = (⟨2026, 9, 12, 23, 59, 59⟩ : JSDate).year ∧
    dateToISO ⟨2026, 9, 12, 8, 30, 15⟩ = dateToISO ⟨2026, 9, 12, 23, 59, 59⟩ :=
  ⟨by decide, dateToISO_dayKey _ _ (by decide) (by decide) (by decide)⟩

/-- C6: when the proposed interval conflicts with a booking in the given list,
`reservar` returns the conflict result (not a success and not a thrown error)
and the stored booking list is left unchanged. -/
theorem reservar_conflict_no_commit (cfg : Config) (servico : Service)
    (date : JSDate) (inicio : Int) (cliente telefone obs : String)
    (bookings : List Booking) (freshId : String)
    (hdia : cfg.diasAtivos.contains date.getDay = true)
    (hnome : (jsTrim cliente == "") = false)
    (hconf : conflito bookings inicio (inicio + servico.duracaoMin) = true) :
    reservar cfg (some servico) date (some inicio) cliente telefone obs bookings
        freshId = .horarioOcupado ∧
    bookingsAfterReservar bookings
        (reservar cfg (some servico) date (some inicio) cliente telefone obs
          bookings freshId) = bookings := by
  have hdia' : date.getDay ∈ cfg.diasAtivos := by simpa using hdia
  have h : reservar cfg (some servico) date (some inicio) cliente telefone obs
      bookings freshId = .horarioOcupado := by
    simp [reservar, hdia', hnome, hconf]
  exact ⟨h, by rw [h]; rfl⟩

/-- Witness for C6: booking 10:00 on a Monday already occupied 10:00-10:45. -/
theorem reservar_conflict_no_commit_witness :
    defaultConfig.diasAtivos.contains segunda.getDay = true ∧
    conflito [reservaSegunda] 600 (600 + corte.duracaoMin) = true ∧
    reservar defaultConfig (some corte) segunda (some 600) "Ana" "" ""
      [reservaSegunda] "bk-novo" = .horarioOcupado :=
  ⟨by decide, by decide,
    (reservar_conflict_no_commit defaultConfig corte segunda 600 "Ana" "" ""
      [reservaSegunda] "bk-novo" (by decide) (by decide) (by decide)).1⟩

/-- C9: a booking created by the commit path of `reservar` stores
`fimMin = inicioMin + servico.duracaoMin` computed at creation time, the saved
list is the input list plus that one record, and a positive service duration
gives `inicioMin < fimMin`. -/
theorem reservar_confirmado_fim (cfg : Config) (servico : Service)
    (date : JSDate) (inicio : Int) (cliente telefone obs : String)
    (bookings : List Booking) (freshId : String) (novo : Booking)
    (salvos : List Booking)
    (h : reservar cfg (some servico) date (some inicio) cliente telefone obs
      bookings freshId = .confirmado novo salvos) :
    novo.fimMin = novo.inicioMin + servico.duracaoMin ∧
    salvos = bookings ++ [novo] ∧
    (0 < servico.duracaoMin → novo.inicioMin < novo.fimMin) := by
  simp only [reservar] at h
  split at h
  · exact absurd h (by simp)
  · split at h
    · exact absurd h (by simp)
    · split at h
      · exact absurd h (by simp)
      · rw [ReservarResult.confirmado.injEq] at h
        obtain ⟨h1, h2⟩ := h
        subst h1 h2
        refine ⟨rfl, rfl, fun hdur => ?_⟩
        simpa using hdur

/-- Witness for C9: a successful concrete `reservar` run. -/
theorem reservar_confirmado_fim_witness :
    reservar defaultConfig (some corte) segunda (some 600) "Ana" "" "" []
        "bk-novo" = .confirmado
      ⟨"bk-novo", "Ana", "", dateToISO segunda, 600, 645, "svc-corte", none⟩
      [⟨"bk-novo", "Ana", "", dateToISO segunda, 600, 645, "svc-corte", none⟩] ∧
    (⟨"bk-novo", "Ana", "", dateToISO segunda, 600, 645, "svc-corte", none⟩ :
      Booking).fimMin = 600 + corte.duracaoMin :=
  ⟨by decide, by
    have := reservar_confirmado_fim defaultConfig corte segunda 600 "Ana" "" ""
      [] "bk-novo"
      ⟨"bk-novo", "Ana", "", dateToISO segunda, 600, 645, "svc-corte", none⟩
      [⟨"bk-novo", "Ana", "", dateToISO segunda, 600, 645, "svc-corte", none⟩]
      (by decide)
    exact this.1⟩

set_option maxHeartbeats 2000000 in
/-- C7: the clock-string conversions are mutually inverse — for every valid
two-digit clock string (hour below 24, minute below 60),
`minToTime (timeToMin s) = s`. -/
theorem minToTime_timeToMin_roundTrip :
    ∀ h : Nat, h < 24 → ∀ m : Nat, m < 60 →
      (timeToMin (pad (h : Int) ++ ":" ++ pad (m : Int))).map minToTime
        = some (pad (h : Int) ++ ":" ++ pad (m : Int)) := by decide

/-- Witness for C7 at 09:05. -/
theorem minToTime_timeToMin_roundTrip_witness :
    9 < 24 ∧ 5 < 60 ∧
    (timeToMin (pad (9 : Int) ++ ":" ++ pad (5 : Int))).map minToTime
      = some (pad (9 : Int) ++ ":" ++ pad (5 : Int)) :=
  ⟨by decide, by decide, minToTime_timeToMin_roundTrip 9 (by decide) 5 (by decide)⟩

/-- C10: `getDayBookings` returns exactly the bookings of the input whose day
key equals `dateToISO day` (a permutation of the filtered input), in ascending
order of `inicioMin`; the embedding is a pure function of the input list, which
is returned unmodified (JS `filter` allocates the array the in-place sort
touches). -/
theorem getDayBookings_spec (bookings : List Booking) (day : JSDate) :
    List.Perm (getDayBookings bookings day)
      (bookings.filter fun b => b.dataISO == dateToISO day) ∧
    List.Pairwise (fun x y => x.inicioMin ≤ y.inicioMin)
      (getDayBookings bookings day) := by
  constructor
  · exact List.mergeSort_perm _ _
  · have h := @List.sorted_mergeSort Booking
      (fun x y => decide (x.inicioMin ≤ y.inicioMin))
      (by intro a b c hab hbc; simp only [decide_eq_true_eq] at hab hbc ⊢; omega)
      (by intro a b; simp only [Bool.or_eq_true, decide_eq_true_eq]; omega)
      (bookings.filter fun b => b.dataISO == dateToISO day)
    refine h.imp ?_
    intro a b hab
    simpa using hab

/-- Counterexample to C4 as stated: a booking filed under the next day's key
with the same minute-of-day interval flips the pre-commit validation of
`reservar` from success to conflict, so an other-day booking does affect
validation when the caller passes an unfiltered set. -/
theorem dayKey_isolation_counterexample :
    reservaTerca.dataISO ≠ dateToISO segunda ∧
    reservar defaultConfig (some corte) segunda (some 600) "Ana" "" ""
      [reservaTerca] "bk-novo" = .horarioOcupado ∧
    reservar defaultConfig (some corte) segunda (some 600) "Ana" "" "" []
      "bk-novo" = .confirmado
        ⟨"bk-novo", "Ana", "", dateToISO segunda, 600, 645, "svc-corte", none⟩
        [⟨"bk-novo", "Ana", "", dateToISO segunda, 600, 645, "svc-corte", none⟩] :=
  ⟨by decide, by decide, by decide⟩

/-- C4 (amended): day-key isolation holds for slot computation (which filters
by day key internally) and for `getDayBookings`; the pre-commit conflict check
of `reservar` performs no day-key filtering of its own, so its day isolation
holds only for the day-filtered booking lists the application hands it. -/
theorem dayKey_isolation_amended (cfg : Config) (servico : Service)
    (date : JSDate) (b : Booking) (bookings : List Booking)
    (hday : b.dataISO ≠ dateToISO date) :
    slotsDisponiveis cfg servico date (b :: bookings)
      = slotsDisponiveis cfg servico date bookings ∧
    getDayBookings (b :: bookings) date = getDayBookings bookings date := by
  have hbeq : (b.dataISO == dateToISO date) = false := by simpa using hday
  constructor
  · simp [slotsDisponiveis, List.filter_cons, hbeq]
  · simp [getDayBookings, List.filter_cons, hbeq]

/-- Witness for the amended C4: the Tuesday booking does not change Monday's
slot computation. -/
theorem dayKey_isolation_amended_witness :
    reservaTerca.dataISO ≠ dateToISO segunda ∧
    slotsDisponiveis defaultConfig corte segunda [reservaTerca, reservaSegunda]
      = slotsDisponiveis defaultConfig corte segunda [reservaSegunda] :=
  ⟨by decide,
    (dayKey_isolation_amended defaultConfig corte segunda reservaTerca
      [reservaSegunda] (by decide)).1⟩

/-- Every slot emitted by `slotsLoop` lies at or after the current cursor, fits
before `closing`, and is overlap-free against every booking it was checked
against. -/
theorem slotsLoop_mem {dayBookings : List Booking} {dur step closing : Int}
    (hstep : 0 < step) :
    ∀ (fuel : Nat) (current s : Int),
      s ∈ slotsLoop dayBookings dur step closing current fuel →
      current ≤ s ∧ s + dur ≤ closing ∧
        ∀ b ∈ dayBookings, overlaps s (s + dur) b.inicioMin b.fimMin = false := by
  intro fuel
  induction fuel with
  | zero => intro current s hs; simp [slotsLoop] at hs
  | succ n ih =>
    intro current s hs
    simp only [slotsLoop] at hs
    split at hs
    case isTrue hguard =>
      rw [List.mem_append] at hs
      rcases hs with hs | hs
      · split at hs
        case isTrue hfree =>
          rw [List.mem_singleton] at hs
          subst hs
          refine ⟨le_refl _, hguard, fun b hb => ?_⟩
          have := List.all_eq_true.mp hfree b hb
          simpa using this
        case isFalse hfree => simp at hs
      · obtain ⟨h1, h2, h3⟩ := ih (current + step) s hs
        exact ⟨by omega, h2, h3⟩
    case isFalse hguard => simp at hs

/-- C1: every start offset returned by the (spec-modelled) slot-computation
entry point `slotsDisponiveis` spans an interval `[s, s + duracao)` that does
not overlap any booking in the input set filed under the target date's day
key. -/
theorem slotsDisponiveis_no_overlap (cfg : Config) (servico : Service)
    (date : JSDate) (bookings : List Booking) (slots : List Int) (s : Int)
    (b : Booking)
    (hok : slotsDisponiveis cfg servico date bookings = .ok slots)
    (hs : s ∈ slots) (hb : b ∈ bookings) (hday : b.dataISO = dateToISO date) :
    overlaps s (s + servico.duracaoMin) b.inicioMin b.fimMin = false := by
  simp only [slotsDisponiveis] at hok
  split at hok
  · exact absurd hok (by simp)
  case isFalse hpos =>
    split at hok
    case h_1 abertura fechamento hab hfe =>
      split at hok
      · exact absurd hok (by simp)
      case isFalse hwin =>
        split at hok
        · rw [Except.ok.injEq] at hok
          subst hok
          simp at hs
        · rw [Except.ok.injEq] at hok
          subst hok
          have hstep : 0 < cfg.intervaloMin := by omega
          refine (slotsLoop_mem hstep _ _ s hs).2.2 b ?_
          rw [List.mem_filter]
          exact ⟨hb, by simp [hday]⟩
    case h_2 => exact absurd hok (by simp)

/-- Witness for C1: window 09:00-11:00, a 10:00-10:45 booking on the day;
the returned slot 555 (09:15-10:00) touches but does not overlap it. -/
theorem slotsDisponiveis_no_overlap_witness :
    slotsDisponiveis configManha corte segunda [reservaSegunda]
      = .ok [540, 555] ∧
    555 ∈ [(540 : Int), 555] ∧
    reservaSegunda ∈ [reservaSegunda] ∧
    reservaSegunda.dataISO = dateToISO segunda ∧
    overlaps 555 (555 + corte.duracaoMin) reservaSegunda.inicioMin
      reservaSegunda.fimMin = false :=
  ⟨by rfl, by decide, by decide, by decide,
    slotsDisponiveis_no_overlap configManha corte segunda [reservaSegunda]
      [540, 555] 555 reservaSegunda (by rfl) (by decide) (by decide)
      (by decide)⟩

/-- C3: with a valid configuration (positive granularity, opening before
closing), every slot returned by the (spec-modelled) `slotsDisponiveis`
satisfies `opening ≤ s` and `s + duracao ≤ closing`. -/
theorem slotsDisponiveis_in_window (cfg : Config) (servico : Service)
    (date : JSDate) (bookings : List Booking) (slots : List Int)
    (abertura fechamento s : Int)
    (hab : timeToMin cfg.horaAbertura = some abertura)
    (hfe : timeToMin cfg.horaFechamento = some fechamento)
    (hstep : 0 < cfg.intervaloMin) (hwin : abertura < fechamento)
    (hok : slotsDisponiveis cfg servico date bookings = .ok slots)
    (hs : s ∈ slots) :
    abertura ≤ s ∧ s + servico.duracaoMin ≤ fechamento := by
  simp only [slotsDisponiveis] at hok
  split at hok
  · exact absurd hok (by simp)
  case isFalse hpos =>
    split at hok
    case h_1 abertura' fechamento' hab' hfe' =>
      rw [hab] at hab'
      rw [hfe] at hfe'
      obtain rfl : abertura = abertura' := by injection hab'
      obtain rfl : fechamento = fechamento' := by injection hfe'
      split at hok
      · exact absurd hok (by simp)
      case isFalse hwin' =>
        split at hok
        · rw [Except.ok.injEq] at hok
          subst hok
          simp at hs
        · rw [Except.ok.injEq] at hok
          subst hok
          obtain ⟨h1, h2, _⟩ := slotsLoop_mem hstep _ _ s hs
          exact ⟨h1, h2⟩
    case h_2 => exact absurd hok (by simp)

/-- Witness for C3: the empty Monday with the 09:00-11:00 window; slot 615 is
the last start that still fits before closing. -/
theorem slotsDisponiveis_in_window_witness :
    timeToMin configManha.horaAbertura = some 540 ∧
    timeToMin configManha.horaFechamento = some 660 ∧
    0 < configManha.intervaloMin ∧ (540 : Int) < 660 ∧
    slotsDisponiveis configManha corte segunda []
      = .ok [540, 555, 570, 585, 600, 615] ∧
    615 ∈ [(540 : Int), 555, 570, 585, 600, 615] ∧
    (540 : Int) ≤ 615 ∧ (615 : Int) + corte.duracaoMin ≤ 660 :=
  ⟨by decide, by decide, by decide, by decide, by rfl, by decide,
    slotsDisponiveis_in_window configManha corte segunda []
      [540, 555, 570, 585, 600, 615] 540 660 615 (by decide) (by decide)
      (by decide) (by decide) (by rfl) (by decide)⟩
